import Mathlib

/-!
# Verification of the Midas Touch trading server core

Shallow embedding of the trading and negotiation engine of `src/server.js`:
the team ledger, the trade execution engine (`execute_trade` handler), the
negotiation protocol (`send_trade_request` / `respond_trade_request`
handlers plus the expiry timeout), the circuit limit guard
(`checkCircuitLimit`), the short-position enforcer (`closeShortPositions`),
and the phase/round timer state machine (`startTimer` / `handleTimerEnd`
plus the `start_phase` handler).

Modelling conventions:
* JavaScript numbers are modelled as exact rationals (`Rat`); the spec makes
  no claims about floating-point rounding.
* JavaScript objects used as string-keyed dictionaries (`team.holdings`,
  `gameState.teams`, `gameState.stocks`, `gameState.tradeRequests`) are
  modelled as association lists with `mapFind?` / `mapGet` / `mapSet` /
  `mapErase` mirroring property read, `x[k] || 0` read, property write and
  `delete x[k]`.
* Environment-generated values (uuids, `Date.now()`) are passed in
  explicitly: fresh ids are parameters, and the current time in
  milliseconds is the `now` field of the global state.
* `callback({success:true,...})` / `callback({success:false,error})` is the
  `Res` result type, carrying the source's error strings.
* Human-readable message text that interpolates numbers (the circuit-limit
  error message) is kept as its fixed prefix; the numeric interpolation is
  presentation only.
-/

set_option maxHeartbeats 1600000

abbrev JsNum := Rat

/-- Lookup in a JS-object-as-dictionary: `obj[k]`, `none` when absent. -/
def mapFind? {α : Type} : List (String × α) → String → Option α
  | [], _ => none
  | (k', v) :: rest, k => if k' = k then some v else mapFind? rest k

/-- Defaulted numeric read `obj[k] || 0` used by the handlers for holdings. -/
def mapGet (m : List (String × JsNum)) (k : String) : JsNum :=
  (mapFind? m k).getD 0

/-- Property write `obj[k] = v`: replaces the existing entry in place, or
appends a new one (JS objects keep insertion order). -/
def mapSet {α : Type} : List (String × α) → String → α → List (String × α)
  | [], k, v => [(k, v)]
  | (k', v') :: rest, k, v =>
    if k' = k then (k, v) :: rest else (k', v') :: mapSet rest k v

/-- Property removal `delete obj[k]`: removes every binding of the key
(JS object keys are unique, so at most one exists). -/
def mapErase {α : Type} : List (String × α) → String → List (String × α)
  | [], _ => []
  | (k', v') :: rest, k =>
    if k' = k then mapErase rest k else (k', v') :: mapErase rest k

/-- A stock of the instrument registry (`gameState.stocks[symbol]`). -/
structure Stock where
  name : String
  price : JsNum
  symbol : String
deriving DecidableEq

/-- A trade record as built by the handlers.  The uuid and the formatted
wall-clock timestamp are environment-generated presentation data and are
omitted. -/
structure Trade where
  teamId : String
  teamName : String
  action : String
  symbol : String
  quantity : JsNum
  price : JsNum
  note : Option String := none
  counterparty : Option String := none
deriving DecidableEq

/-- A team ledger (`gameState.teams[teamId]`). -/
structure Team where
  id : String
  name : String
  cash : JsNum
  startingBalance : JsNum
  holdings : List (String × JsNum)
  shortHoldings : List (String × JsNum)
  joinCode : String
  trades : List Trade
deriving DecidableEq

/-- The global game configuration singleton (`gameState.gameConfig`).
The admin password is out of the verified core. -/
structure GameConfig where
  phase : String
  startingBalance : JsNum
  currentRound : Nat
  totalRounds : Nat
  timeRemaining : Nat
  portfolioAllocationTime : Nat
  tradingRoundTime : Nat
  circuitLimitFrozen : Bool
  marketTradingEnabled : Bool
  shortSellingFrozen : Bool
deriving DecidableEq

/-- A pending bilateral trade request (`gameState.tradeRequests[id]`).
The formatted timestamp string is omitted; `expiresAt` is kept in
milliseconds as in the source. -/
structure TradeRequest where
  id : String
  fromTeamId : String
  fromTeamName : String
  toTeamId : String
  toTeamName : String
  action : String
  symbol : String
  stockName : String
  quantity : JsNum
  price : JsNum
  expiresAt : Nat
deriving DecidableEq

/-- The global mutable state (`gameState` plus the current time in ms). -/
structure GState where
  teams : List (String × Team)
  stocks : List (String × Stock)
  trades : List Trade
  tradeRequests : List (String × TradeRequest)
  gameConfig : GameConfig
  now : Nat
deriving DecidableEq

/-- Handler callback result: `{success:true, ...}` or
`{success:false, error}`. -/
inductive Res (α : Type) where
  | ok : α → Res α
  | err : String → Res α
deriving DecidableEq

def Res.isOk {α : Type} : Res α → Bool
  | .ok _ => true
  | .err _ => false

/-- The initial instrument registry of `server.js`. -/
def initStocks : List (String × Stock) :=
  [("TATAMOTORS", ⟨"TATA MOTORS", 400, "TATAMOTORS"⟩),
   ("ADANIGREEN", ⟨"ADANI GREEN", 1025, "ADANIGREEN"⟩),
   ("ONGC", ⟨"ONGC", 255, "ONGC"⟩),
   ("RELIANCE", ⟨"RELIANCE", 1450, "RELIANCE"⟩),
   ("ITC", ⟨"ITC", 415, "ITC"⟩),
   ("HDFCBANK", ⟨"HDFC BANK", 1000, "HDFCBANK"⟩),
   ("ICICIBANK", ⟨"ICICI BANK", 1375, "ICICIBANK"⟩),
   ("ZOMATO", ⟨"ZOMATO", 325, "ZOMATO"⟩),
   ("TATAELXSI", ⟨"TATA ELXSI", 5540, "TATAELXSI"⟩),
   ("INFOSYS", ⟨"INFOSYS", 1520, "INFOSYS"⟩),
   ("LNT", ⟨"L&T", 3900, "LNT"⟩),
   ("GOLD", ⟨"GOLD", 122500, "GOLD"⟩),
   ("SILVER", ⟨"SILVER", 150000, "SILVER"⟩),
   ("CRUDEOIL", ⟨"CRUDE OIL", 5425, "CRUDEOIL"⟩),
   ("DOGE", ⟨"DOGE COIN", 17, "DOGE"⟩),
   ("ETHEREUM", ⟨"ETHEREUM", 345000, "ETHEREUM"⟩)]

/-- The initial `gameConfig` of `server.js`. -/
def initGameConfig : GameConfig :=
  { phase := "waiting"
    startingBalance := 100000
    currentRound := 0
    totalRounds := 0
    timeRemaining := 0
    portfolioAllocationTime := 600
    tradingRoundTime := 600
    circuitLimitFrozen := false
    marketTradingEnabled := false
    shortSellingFrozen := false }

/-- The initial `gameState`. -/
def initState : GState :=
  { teams := []
    stocks := initStocks
    trades := []
    tradeRequests := []
    gameConfig := initGameConfig
    now := 0 }

/-- The `create_team` handler; `teamId` and `joinCode` are
environment-generated and passed in. -/
def createTeam (s : GState) (teamId joinCode name : String)
    (startingBalance : JsNum) : Res Team × GState :=
  let newTeam : Team :=
    { id := teamId, name := name, cash := startingBalance,
      startingBalance := startingBalance, holdings := [], shortHoldings := [],
      joinCode := joinCode, trades := [] }
  (.ok newTeam, { s with teams := mapSet s.teams teamId newTeam })

/-- The `update_stock_price` handler: silently ignores unknown symbols. -/
def updateStockPrice (s : GState) (symbol : String) (price : JsNum) : GState :=
  match mapFind? s.stocks symbol with
  | some stock =>
      { s with stocks := mapSet s.stocks symbol { stock with price := price } }
  | none => s

/-- `checkCircuitLimit(symbol, proposedPrice)` with its two reads of global
state (the freeze flag and the stock's current price) passed explicitly.
Returns the `valid` field; `0.92` and `1.08` are written as exact
rationals. -/
def checkCircuitLimit (frozen : Bool) (currentPrice proposedPrice : JsNum) : Bool :=
  if frozen then
    true
  else
    let lowerLimit := currentPrice * (92 / 100 : JsNum)
    let upperLimit := currentPrice * (108 / 100 : JsNum)
    if proposedPrice < lowerLimit ∨ proposedPrice > upperLimit then
      false
    else
      true

/-- The common success tail of the `execute_trade` handler (lines 393-410):
build the trade record, push it to the team's history and to the front of
the global log, store the mutated team, report success. -/
def finishTrade (s : GState) (teamId : String) (team : Team)
    (action symbol : String) (quantity price : JsNum) : Res Team × GState :=
  let trade : Trade :=
    { teamId := teamId, teamName := team.name, action := action,
      symbol := symbol, quantity := quantity, price := price }
  let team' := { team with trades := team.trades ++ [trade] }
  (.ok team',
   { s with teams := mapSet s.teams teamId team', trades := trade :: s.trades })

/-- The `execute_trade` handler. -/
def executeTrade (s : GState) (teamId action symbol : String)
    (quantity price : JsNum) : Res Team × GState :=
  match mapFind? s.teams teamId, mapFind? s.stocks symbol with
  | some team, some _stock =>
    let totalCost := quantity * price
    if action = "buy" then
      if team.cash < totalCost then
        (.err "Insufficient funds", s)
      else
        let team' := { team with
          cash := team.cash - totalCost,
          holdings := mapSet team.holdings symbol
            (mapGet team.holdings symbol + quantity) }
        finishTrade s teamId team' action symbol quantity price
    else if action = "sell" then
      if mapGet team.holdings symbol < quantity then
        (.err "Insufficient holdings", s)
      else
        let h := mapSet team.holdings symbol
          (mapGet team.holdings symbol - quantity)
        let h' := if mapGet h symbol = 0 then mapErase h symbol else h
        let team' := { team with cash := team.cash + totalCost, holdings := h' }
        finishTrade s teamId team' action symbol quantity price
    else if action = "short_sell" then
      if s.gameConfig.shortSellingFrozen then
        (.err "Short selling is currently frozen", s)
      else if ¬ (s.gameConfig.phase = "trading") then
        (.err "Short selling only allowed in trading phase", s)
      else if totalCost > team.cash then
        (.err "Cannot short more than 100% of remaining cash", s)
      else
        let team' := { team with
          cash := team.cash + totalCost,
          shortHoldings := mapSet team.shortHoldings symbol
            (mapGet team.shortHoldings symbol + quantity) }
        finishTrade s teamId team' action symbol quantity price
    else if action = "cover_short" then
      if mapGet team.shortHoldings symbol < quantity then
        (.err "Insufficient short positions", s)
      else if team.cash < totalCost then
        (.err "Insufficient funds to cover short", s)
      else
        let h := mapSet team.shortHoldings symbol
          (mapGet team.shortHoldings symbol - quantity)
        let h' := if mapGet h symbol = 0 then mapErase h symbol else h
        let team' := { team with cash := team.cash - totalCost, shortHoldings := h' }
        finishTrade s teamId team' action symbol quantity price
    else
      -- an unrecognized action string matches no branch and falls through
      -- to the success tail with the team unchanged
      finishTrade s teamId team action symbol quantity price
  | _, _ => (.err "Invalid team or stock", s)

/-- The `send_trade_request` handler; the fresh uuid is the `requestId`
parameter. -/
def sendTradeRequest (s : GState) (requestId : String)
    (fromTeamId toTeamId action symbol : String)
    (quantity price : JsNum) : Res TradeRequest × GState :=
  match mapFind? s.teams fromTeamId, mapFind? s.teams toTeamId,
        mapFind? s.stocks symbol with
  | some fromTeam, some toTeam, some stock =>
    if checkCircuitLimit s.gameConfig.circuitLimitFrozen stock.price price then
      let request : TradeRequest :=
        { id := requestId, fromTeamId := fromTeamId,
          fromTeamName := fromTeam.name, toTeamId := toTeamId,
          toTeamName := toTeam.name, action := action, symbol := symbol,
          stockName := stock.name, quantity := quantity, price := price,
          expiresAt := s.now + 20000 }
      (.ok request,
       { s with tradeRequests := mapSet s.tradeRequests requestId request })
    else
      (.err "Price not obeying circuit limit", s)
  | _, _, _ => (.err "Invalid request", s)

/-- Update the team stored under `id` in place (a mutation of the live team
object through the `gameState.teams` reference). -/
def updTeam (teams : List (String × Team)) (id : String) (f : Team → Team) :
    List (String × Team) :=
  match mapFind? teams id with
  | some t => mapSet teams id (f t)
  | none => teams

/-- The `respond_trade_request` handler.  The buyer/seller mutations are
threaded sequentially through the teams map, which reproduces the JS
aliasing behaviour when the two teams coincide.  The source reads
`.cash` of an undefined team only when a pending request references a
missing team id (impossible for requests created by `send_trade_request`);
that read would throw in JS and is modelled as the `"TypeError"` result
with the request already removed. -/
def respondTradeRequest (s : GState) (requestId : String) (accept : Bool) :
    Res Unit × GState :=
  match mapFind? s.tradeRequests requestId with
  | none => (.err "Request not found or expired", s)
  | some request =>
    let s1 : GState :=
      { s with tradeRequests := mapErase s.tradeRequests requestId }
    if ¬ accept then
      (.ok (), s1)
    else
      let buyerId := if request.action = "buy" then request.fromTeamId
                     else request.toTeamId
      let sellerId := if request.action = "buy" then request.toTeamId
                      else request.fromTeamId
      match mapFind? s1.teams buyerId, mapFind? s1.teams sellerId with
      | some buyerTeam, some sellerTeam =>
        let totalCost := request.quantity * request.price
        if buyerTeam.cash < totalCost then
          (.err "Buyer has insufficient funds", s1)
        else if mapGet sellerTeam.holdings request.symbol < request.quantity then
          (.err "Seller has insufficient holdings", s1)
        else
          let teams1 := updTeam s1.teams buyerId
            (fun t => { t with cash := t.cash - totalCost })
          let teams2 := updTeam teams1 sellerId
            (fun t => { t with cash := t.cash + totalCost })
          let teams3 := updTeam teams2 buyerId (fun t =>
            let h := mapSet t.holdings request.symbol
              (mapGet t.holdings request.symbol + request.quantity)
            { t with holdings := h })
          let teams4 := updTeam teams3 sellerId (fun t =>
            let h := mapSet t.holdings request.symbol
              (mapGet t.holdings request.symbol - request.quantity)
            { t with holdings :=
                if mapGet h request.symbol = 0 then mapErase h request.symbol
                else h })
          let buyTrade : Trade :=
            { teamId := buyerTeam.id, teamName := buyerTeam.name,
              action := "buy", symbol := request.symbol,
              quantity := request.quantity, price := request.price,
              counterparty := some sellerTeam.name }
          let sellTrade : Trade :=
            { teamId := sellerTeam.id, teamName := sellerTeam.name,
              action := "sell", symbol := request.symbol,
              quantity := request.quantity, price := request.price,
              counterparty := some buyerTeam.name }
          let teams5 := updTeam teams4 buyerId
            (fun t => { t with trades := t.trades ++ [buyTrade] })
          let teams6 := updTeam teams5 sellerId
            (fun t => { t with trades := t.trades ++ [sellTrade] })
          (.ok (),
           { s1 with teams := teams6,
                     trades := sellTrade :: buyTrade :: s.trades })
      | _, _ => (.err "TypeError", s1)

/-- The expiry timeout scheduled by `send_trade_request`: unconditionally
deletes the request from the pending set (deleting an absent key is a
no-op). -/
def expireTradeRequest (s : GState) (requestId : String) : GState :=
  { s with tradeRequests := mapErase s.tradeRequests requestId }

/-- One iteration of the `Object.entries(team.shortHoldings).forEach` loop
in `closeShortPositions`: buy the entry back at the live stock price,
append the forced-cover trade. -/
def closeShortStep (s : GState) (teamId : String) (acc : Team × List Trade)
    (entry : String × JsNum) : Team × List Trade :=
  match mapFind? s.stocks entry.1 with
  | some stock =>
    if 0 < entry.2 then
      let totalCost := entry.2 * stock.price
      let trade : Trade :=
        { teamId := teamId, teamName := acc.1.name,
          action := "cover_short_forced", symbol := entry.1,
          quantity := entry.2, price := stock.price,
          note := some "Forced exit due to short selling freeze" }
      ({ acc.1 with cash := acc.1.cash - totalCost,
                    trades := acc.1.trades ++ [trade] }, trade :: acc.2)
    else acc
  | none => acc

/-- `closeShortPositions(teamId)`: iterate over a snapshot of the team's
short entries, buying each back at the live stock price, then clear the
whole short map. -/
def closeShortPositions (s : GState) (teamId : String) : GState :=
  match mapFind? s.teams teamId with
  | none => s
  | some team =>
    let out := team.shortHoldings.foldl (closeShortStep s teamId) (team, s.trades)
    let team' := { out.1 with shortHoldings := [] }
    { s with teams := mapSet s.teams teamId team', trades := out.2 }

/-- The `toggle_short_freeze` handler: flip the flag, and on the
false→true transition force-close every team's short book. -/
def toggleShortFreeze (s : GState) : GState :=
  let s1 : GState := { s with gameConfig :=
    { s.gameConfig with shortSellingFrozen := !s.gameConfig.shortSellingFrozen } }
  if s1.gameConfig.shortSellingFrozen then
    s1.teams.foldl (fun acc p => closeShortPositions acc p.1) s1
  else s1

/-- The `toggle_market_trading` handler. -/
def toggleMarketTrading (s : GState) : GState :=
  { s with gameConfig :=
    { s.gameConfig with marketTradingEnabled := !s.gameConfig.marketTradingEnabled } }

/-- The `toggle_circuit_freeze` handler. -/
def toggleCircuitFreeze (s : GState) : GState :=
  { s with gameConfig :=
    { s.gameConfig with circuitLimitFrozen := !s.gameConfig.circuitLimitFrozen } }

/-- The timer-relevant projection of the global state: the game config plus
whether `timerInterval` is currently set (an interval is running). -/
structure TimerSt where
  cfg : GameConfig
  active : Bool
deriving DecidableEq

/-- `handleTimerEnd()`.  In the `trading`/round-exhausted branch the source
clears the interval, which is `active := false` here. -/
def handleTimerEnd (t : TimerSt) : TimerSt :=
  if t.cfg.phase = "portfolio_allocation" then
    { t with cfg := { t.cfg with phase := "waiting" } }
  else if t.cfg.phase = "trading" then
    if t.cfg.currentRound < t.cfg.totalRounds then
      { t with cfg := { t.cfg with
          currentRound := t.cfg.currentRound + 1,
          timeRemaining := t.cfg.tradingRoundTime } }
    else
      { cfg := { t.cfg with phase := "ended" }, active := false }
  else t

/-- One firing of the interval started by `startTimer()`: if the interval
is still set and time remains, decrement, and on reaching zero run
`handleTimerEnd`. -/
def tick (t : TimerSt) : TimerSt :=
  if t.active then
    if 0 < t.cfg.timeRemaining then
      let t' : TimerSt :=
        { t with cfg := { t.cfg with timeRemaining := t.cfg.timeRemaining - 1 } }
      if t'.cfg.timeRemaining = 0 then handleTimerEnd t' else t'
    else t
  else t

/-- The `start_phase` handler restricted to its timer-relevant effect,
followed by `startTimer()` (which replaces any previous interval, so
`active := true`).  `rounds` and `tradingRoundTime` may be absent from the
payload; a missing or zero (falsy) `tradingRoundTime` falls back to
`duration`. -/
def startPhase (t : TimerSt) (phase : String) (duration : Nat) (rounds : Nat)
    (tradingRoundTime : Option Nat) : TimerSt :=
  let c0 := { t.cfg with phase := phase, timeRemaining := duration }
  let c1 :=
    if phase = "trading" then
      { c0 with currentRound := 1, totalRounds := rounds,
                tradingRoundTime :=
                  match tradingRoundTime with
                  | some v => if v = 0 then duration else v
                  | none => duration }
    else
      { c0 with currentRound := 0, totalRounds := 0 }
  let c2 :=
    if phase = "portfolio_allocation" then
      { c1 with portfolioAllocationTime := duration }
    else c1
  { cfg := c2, active := true }

/-- The timer-relevant configuration produced by `start_phase trading 600`
with 3 rounds, parametrized by the current round and the remaining time;
used to state the C6 scenario. -/
def tradingCfg (round tr : Nat) : GameConfig :=
  { phase := "trading", startingBalance := 100000, currentRound := round,
    totalRounds := 3, timeRemaining := tr, portfolioAllocationTime := 600,
    tradingRoundTime := 600, circuitLimitFrozen := false,
    marketTradingEnabled := false, shortSellingFrozen := false }

/-- Every entry of a holdings-style map is strictly positive (the spec's
invariant: a symbol never appears with quantity ≤ 0). -/
def PosMap (m : List (String × JsNum)) : Prop := ∀ q ∈ m, 0 < q.2

/-- Both of a team's inventory maps satisfy the positivity invariant. -/
def TeamPos (t : Team) : Prop := PosMap t.holdings ∧ PosMap t.shortHoldings

/-- Every team of the state satisfies the positivity invariant. -/
def StatePos (s : GState) : Prop := ∀ p ∈ s.teams, TeamPos p.2

/-! ## Association-list lemmas -/

@[simp]
theorem mapFind?_mapSet_self {α : Type} (m : List (String × α)) (k : String)
    (v : α) : mapFind? (mapSet m k v) k = some v := by
  induction m with
  | nil => simp [mapSet, mapFind?]
  | cons hd tl ih =>
    by_cases h : hd.1 = k
    · simp [mapSet, mapFind?, h]
    · simp [mapSet, mapFind?, h, ih]

theorem mapFind?_mapSet_ne {α : Type} (m : List (String × α)) (k k' : String)
    (v : α) (h : k ≠ k') : mapFind? (mapSet m k v) k' = mapFind? m k' := by
  induction m with
  | nil => simp [mapSet, mapFind?, h]
  | cons hd tl ih =>
    by_cases hk : hd.1 = k
    · simp only [mapSet, hk, if_pos rfl, mapFind?]
      simp [h, hk]
    · simp [mapSet, mapFind?, hk, ih]

@[simp]
theorem mapFind?_mapErase_self {α : Type} (m : List (String × α)) (k : String) :
    mapFind? (mapErase m k) k = none := by
  induction m with
  | nil => simp [mapErase, mapFind?]
  | cons hd tl ih =>
    by_cases h : hd.1 = k
    · simp [mapErase, h, ih]
    · simp [mapErase, mapFind?, h, ih]

theorem mapFind?_mapErase_ne {α : Type} (m : List (String × α)) (k k' : String)
    (h : k ≠ k') : mapFind? (mapErase m k) k' = mapFind? m k' := by
  induction m with
  | nil => simp [mapErase]
  | cons hd tl ih =>
    by_cases hk : hd.1 = k
    · subst hk
      simp [mapErase, mapFind?, ih, h]
    · simp [mapErase, mapFind?, hk, ih]

@[simp]
theorem mapGet_mapSet_self (m : List (String × JsNum)) (k : String)
    (v : JsNum) : mapGet (mapSet m k v) k = v := by
  simp [mapGet]

@[simp]
theorem mapGet_mapErase_self (m : List (String × JsNum)) (k : String) :
    mapGet (mapErase m k) k = 0 := by
  simp [mapGet]

theorem mem_mapSet {α : Type} {m : List (String × α)} {k : String} {v : α}
    {q : String × α} (hq : q ∈ mapSet m k v) : q = (k, v) ∨ q ∈ m := by
  induction m with
  | nil =>
    rw [mapSet] at hq
    exact Or.inl (List.mem_singleton.mp hq)
  | cons hd tl ih =>
    by_cases h : hd.1 = k
    · rw [mapSet, if_pos h] at hq
      rcases List.mem_cons.mp hq with h1 | h1
      · exact Or.inl h1
      · exact Or.inr (List.mem_cons_of_mem _ h1)
    · rw [mapSet, if_neg h] at hq
      rcases List.mem_cons.mp hq with h1 | h1
      · exact Or.inr (h1 ▸ List.mem_cons_self _ _)
      · rcases ih h1 with h2 | h2
        · exact Or.inl h2
        · exact Or.inr (List.mem_cons_of_mem _ h2)

theorem mem_mapErase {α : Type} {m : List (String × α)} {k : String}
    {q : String × α} (hq : q ∈ mapErase m k) : q ∈ m := by
  induction m with
  | nil => simpa [mapErase] using hq
  | cons hd tl ih =>
    by_cases h : hd.1 = k
    · rw [mapErase, if_pos h] at hq
      exact List.mem_cons_of_mem _ (ih hq)
    · rw [mapErase, if_neg h] at hq
      rcases List.mem_cons.mp hq with h1 | h1
      · exact h1 ▸ List.mem_cons_self _ _
      · exact List.mem_cons_of_mem _ (ih h1)

theorem mapFind?_mem {α : Type} {m : List (String × α)} {k : String} {v : α}
    (h : mapFind? m k = some v) : (k, v) ∈ m := by
  induction m with
  | nil => simp [mapFind?] at h
  | cons hd tl ih =>
    by_cases hk : hd.1 = k
    · rw [mapFind?, if_pos hk] at h
      cases hd
      injection h with h'
      simp_all
    · rw [mapFind?, if_neg hk] at h
      exact List.mem_cons_of_mem _ (ih h)

theorem mapFind?_updTeam (teams : List (String × Team)) (id id' : String)
    (f : Team → Team) :
    mapFind? (updTeam teams id f) id' =
      if id = id' then (mapFind? teams id').map f else mapFind? teams id' := by
  unfold updTeam
  by_cases h : id = id'
  · subst h
    cases hfind : mapFind? teams id with
    | none => simp [hfind]
    | some t => simp [hfind]
  · cases hfind : mapFind? teams id with
    | none => simp [h]
    | some t => simp [h, mapFind?_mapSet_ne _ _ _ _ h]

/-! ## Claim theorems -/

/-- Claim C8: a team starting with cash 100000 that buys 10 units of the
400-priced instrument ends with cash 96000 and holdings {TATAMOTORS: 10};
selling all 10 back at 420 leaves cash 100200 and an empty holdings map
(the entry is removed). -/
theorem c8_buy_then_sell_scenario :
    (executeTrade (createTeam initState "team-a" "ABC123" "Team A" 100000).2
        "team-a" "buy" "TATAMOTORS" 10 400).1.isOk = true ∧
    (mapFind? (executeTrade (createTeam initState "team-a" "ABC123" "Team A" 100000).2
        "team-a" "buy" "TATAMOTORS" 10 400).2.teams "team-a").map Team.cash =
      some 96000 ∧
    (mapFind? (executeTrade (createTeam initState "team-a" "ABC123" "Team A" 100000).2
        "team-a" "buy" "TATAMOTORS" 10 400).2.teams "team-a").map Team.holdings =
      some [("TATAMOTORS", 10)] ∧
    (executeTrade (executeTrade (createTeam initState "team-a" "ABC123" "Team A" 100000).2
        "team-a" "buy" "TATAMOTORS" 10 400).2
        "team-a" "sell" "TATAMOTORS" 10 420).1.isOk = true ∧
    (mapFind? (executeTrade (executeTrade (createTeam initState "team-a" "ABC123" "Team A" 100000).2
        "team-a" "buy" "TATAMOTORS" 10 400).2
        "team-a" "sell" "TATAMOTORS" 10 420).2.teams "team-a").map Team.cash =
      some 100200 ∧
    (mapFind? (executeTrade (executeTrade (createTeam initState "team-a" "ABC123" "Team A" 100000).2
        "team-a" "buy" "TATAMOTORS" 10 400).2
        "team-a" "sell" "TATAMOTORS" 10 420).2.teams "team-a").map Team.holdings =
      some [] := by
  norm_num [createTeam, initState, initStocks, initGameConfig, executeTrade,
    finishTrade, mapFind?, mapGet, mapSet, mapErase, Res.isOk]
  simp only [if_neg (show ¬("sell" = "buy") from by decide)]

/-- Claim C3: for a known team and stock, `short_sell` fails with the
short-selling-frozen error when the freeze flag is set, otherwise with the
wrong-phase error when the phase is not `trading`, otherwise with the
over-collateralization error when `quantity*price` strictly exceeds the
team's cash; each failure leaves the whole state (hence cash) unchanged.
Otherwise it credits cash by `quantity*price` and adds `quantity` to
`shortHoldings[symbol]`. -/
theorem c3_short_sell_paths (s : GState) (teamId symbol : String)
    (q p : JsNum) (team : Team) (stock : Stock)
    (hteam : mapFind? s.teams teamId = some team)
    (hstock : mapFind? s.stocks symbol = some stock) :
    (s.gameConfig.shortSellingFrozen = true →
      executeTrade s teamId "short_sell" symbol q p =
        (.err "Short selling is currently frozen", s)) ∧
    (s.gameConfig.shortSellingFrozen = false →
      s.gameConfig.phase ≠ "trading" →
      executeTrade s teamId "short_sell" symbol q p =
        (.err "Short selling only allowed in trading phase", s)) ∧
    (s.gameConfig.shortSellingFrozen = false →
      s.gameConfig.phase = "trading" → q * p > team.cash →
      executeTrade s teamId "short_sell" symbol q p =
        (.err "Cannot short more than 100% of remaining cash", s)) ∧
    (s.gameConfig.shortSellingFrozen = false →
      s.gameConfig.phase = "trading" → ¬ q * p > team.cash →
      (executeTrade s teamId "short_sell" symbol q p).1.isOk = true ∧
      (mapFind? (executeTrade s teamId "short_sell" symbol q p).2.teams
          teamId).map Team.cash = some (team.cash + q * p) ∧
      (mapFind? (executeTrade s teamId "short_sell" symbol q p).2.teams
          teamId).map (fun t => mapGet t.shortHoldings symbol) =
        some (mapGet team.shortHoldings symbol + q)) := by
  refine ⟨?_, ?_, ?_, ?_⟩
  · intro h1
    simp [executeTrade, hteam, hstock, h1]
  · intro h1 h2
    simp [executeTrade, hteam, hstock, h1, h2]
  · intro h1 h2 h3
    simp [executeTrade, hteam, hstock, h1, h2, h3]
  · intro h1 h2 h3
    simp [executeTrade, finishTrade, hteam, hstock, h1, h2, h3, Res.isOk]

/-- Claim C9: `execute_trade` with an action string outside
{buy, sell, short_sell, cover_short} still succeeds, leaves the team's
cash, holdings and short holdings unchanged, appends one trade record
bearing that action string to the team's history, and prepends the same
record to the global trade log. -/
theorem c9_unknown_action_records_trade (s : GState)
    (teamId action symbol : String) (q p : JsNum) (team : Team) (stock : Stock)
    (hteam : mapFind? s.teams teamId = some team)
    (hstock : mapFind? s.stocks symbol = some stock)
    (h1 : action ≠ "buy") (h2 : action ≠ "sell")
    (h3 : action ≠ "short_sell") (h4 : action ≠ "cover_short") :
    executeTrade s teamId action symbol q p =
      (.ok { team with trades := team.trades ++
              [{ teamId := teamId, teamName := team.name, action := action,
                 symbol := symbol, quantity := q, price := p }] },
       { s with
           teams := mapSet s.teams teamId
             { team with trades := team.trades ++
                [{ teamId := teamId, teamName := team.name, action := action,
                   symbol := symbol, quantity := q, price := p }] },
           trades := { teamId := teamId, teamName := team.name,
                       action := action, symbol := symbol, quantity := q,
                       price := p } :: s.trades }) := by
  simp [executeTrade, finishTrade, hteam, hstock, h1, h2, h3, h4]

/-- Claim C10: for the actions buy, sell and cover_short, the result and
the resulting team ledgers of `execute_trade` do not depend on the phase
or on the `marketTradingEnabled` flag: running the same trade on a state
differing only in those two fields gives the same callback result and the
same teams map. -/
theorem c10_ledger_independent_of_phase_and_market_flag (s : GState)
    (ph : String) (mte : Bool) (teamId action symbol : String) (q p : JsNum)
    (ha : action = "buy" ∨ action = "sell" ∨ action = "cover_short") :
    (executeTrade s teamId action symbol q p).1 =
      (executeTrade { s with gameConfig :=
          { s.gameConfig with phase := ph, marketTradingEnabled := mte } }
        teamId action symbol q p).1 ∧
    (executeTrade s teamId action symbol q p).2.teams =
      (executeTrade { s with gameConfig :=
          { s.gameConfig with phase := ph, marketTradingEnabled := mte } }
        teamId action symbol q p).2.teams := by
  have hteams : ({ s with gameConfig := { s.gameConfig with
      phase := ph, marketTradingEnabled := mte } } : GState).teams = s.teams :=
    rfl
  rcases ha with rfl | rfl | rfl <;>
    cases hteam : mapFind? s.teams teamId <;>
    cases hstock : mapFind? s.stocks symbol <;>
    constructor <;>
    simp only [executeTrade, finishTrade, hteam, hstock, hteams] <;>
    split_ifs <;>
    first
      | rfl
      | simp_all

/-- Witness for C3: in a trading-phase state with one team holding cash
100000, shorting 5 units at price 400 succeeds. -/
theorem c3_short_sell_paths_witness :
    (executeTrade
        { (createTeam initState "team-a" "JC" "Team A" 100000).2 with
          gameConfig := { initGameConfig with phase := "trading" } }
        "team-a" "short_sell" "TATAMOTORS" 5 400).1.isOk = true := by
  have h := c3_short_sell_paths
    { (createTeam initState "team-a" "JC" "Team A" 100000).2 with
      gameConfig := { initGameConfig with phase := "trading" } }
    "team-a" "TATAMOTORS" 5 400
    { id := "team-a", name := "Team A", cash := 100000,
      startingBalance := 100000, holdings := [], shortHoldings := [],
      joinCode := "JC", trades := [] }
    ⟨"TATA MOTORS", 400, "TATAMOTORS"⟩
    (by norm_num [createTeam, initState, mapFind?, mapSet])
    (by norm_num [createTeam, initState, initStocks, mapFind?, mapSet])
  exact (h.2.2.2 rfl rfl (by norm_num)).1

/-- Witness for C9: trading with the unrecognized action "airdrop"
succeeds and only appends the history record. -/
theorem c9_unknown_action_records_trade_witness :
    (executeTrade (createTeam initState "team-a" "JC" "Team A" 100000).2
        "team-a" "airdrop" "TATAMOTORS" 3 50).1 =
      .ok { id := "team-a", name := "Team A", cash := 100000,
            startingBalance := 100000, holdings := [], shortHoldings := [],
            joinCode := "JC",
            trades := [{ teamId := "team-a", teamName := "Team A",
                         action := "airdrop", symbol := "TATAMOTORS",
                         quantity := 3, price := 50 }] } := by
  have h := c9_unknown_action_records_trade
    (createTeam initState "team-a" "JC" "Team A" 100000).2
    "team-a" "airdrop" "TATAMOTORS" 3 50
    { id := "team-a", name := "Team A", cash := 100000,
      startingBalance := 100000, holdings := [], shortHoldings := [],
      joinCode := "JC", trades := [] }
    ⟨"TATA MOTORS", 400, "TATAMOTORS"⟩
    (by norm_num [createTeam, initState, mapFind?, mapSet])
    (by norm_num [createTeam, initState, initStocks, mapFind?, mapSet])
    (by decide) (by decide) (by decide) (by decide)
  rw [h]
  rfl

/-- Witness for C10: a buy is unaffected by switching the phase to
`trading` and enabling market trading. -/
theorem c10_ledger_independent_of_phase_and_market_flag_witness :
    (executeTrade (createTeam initState "team-a" "JC" "Team A" 100000).2
        "team-a" "buy" "TATAMOTORS" 2 100).1 =
      (executeTrade
        { (createTeam initState "team-a" "JC" "Team A" 100000).2 with
          gameConfig :=
            { ((createTeam initState "team-a" "JC" "Team A" 100000).2).gameConfig with
              phase := "trading", marketTradingEnabled := true } }
        "team-a" "buy" "TATAMOTORS" 2 100).1 :=
  (c10_ledger_independent_of_phase_and_market_flag
    (createTeam initState "team-a" "JC" "Team A" 100000).2
    "trading" true "team-a" "buy" "TATAMOTORS" 2 100 (Or.inl rfl)).1

/-- Claim C7: `send_trade_request` fails with the invalid-request error
when a team or the symbol is unknown; with the circuit freeze off it fails
with the circuit-limit error exactly when the price falls outside
`[0.92*currentPrice, 1.08*currentPrice]`, leaving the state unchanged; on
success the created pending request expires exactly 20000 ms after the
current time; with the freeze on, every price is accepted. -/
theorem c7_send_trade_request_guard (s : GState)
    (rid fromId toId action symbol : String) (q p : JsNum) :
    ((mapFind? s.teams fromId = none ∨ mapFind? s.teams toId = none ∨
        mapFind? s.stocks symbol = none) →
      sendTradeRequest s rid fromId toId action symbol q p =
        (.err "Invalid request", s)) ∧
    (∀ fromTeam toTeam stock,
      mapFind? s.teams fromId = some fromTeam →
      mapFind? s.teams toId = some toTeam →
      mapFind? s.stocks symbol = some stock →
      ((s.gameConfig.circuitLimitFrozen = false →
        ((p < stock.price * (92 / 100) ∨ p > stock.price * (108 / 100)) →
          sendTradeRequest s rid fromId toId action symbol q p =
            (.err "Price not obeying circuit limit", s)) ∧
        (¬ (p < stock.price * (92 / 100) ∨ p > stock.price * (108 / 100)) →
          sendTradeRequest s rid fromId toId action symbol q p =
            (.ok { id := rid, fromTeamId := fromId,
                   fromTeamName := fromTeam.name, toTeamId := toId,
                   toTeamName := toTeam.name, action := action,
                   symbol := symbol, stockName := stock.name, quantity := q,
                   price := p, expiresAt := s.now + 20000 },
             { s with tradeRequests := (mapSet s.tradeRequests rid
                 { id := rid, fromTeamId := fromId,
                   fromTeamName := fromTeam.name, toTeamId := toId,
                   toTeamName := toTeam.name, action := action,
                   symbol := symbol, stockName := stock.name, quantity := q,
                   price := p, expiresAt := s.now + 20000 }) }))) ∧
      (s.gameConfig.circuitLimitFrozen = true →
        sendTradeRequest s rid fromId toId action symbol q p =
          (.ok { id := rid, fromTeamId := fromId,
                 fromTeamName := fromTeam.name, toTeamId := toId,
                 toTeamName := toTeam.name, action := action,
                 symbol := symbol, stockName := stock.name, quantity := q,
                 price := p, expiresAt := s.now + 20000 },
           { s with tradeRequests := (mapSet s.tradeRequests rid
               { id := rid, fromTeamId := fromId,
                 fromTeamName := fromTeam.name, toTeamId := toId,
                 toTeamName := toTeam.name, action := action,
                 symbol := symbol, stockName := stock.name, quantity := q,
                 price := p, expiresAt := s.now + 20000 }) })))) := by
  constructor
  · intro h
    rcases h with h | h | h <;>
      cases h1 : mapFind? s.teams fromId <;>
      cases h2 : mapFind? s.teams toId <;>
      cases h3 : mapFind? s.stocks symbol <;>
      simp_all [sendTradeRequest]
  · intro fromTeam toTeam stock h1 h2 h3
    constructor
    · intro hfz
      constructor
      · intro hout
        simp [sendTradeRequest, h1, h2, h3, checkCircuitLimit, hfz, hout]
      · intro hin
        simp [sendTradeRequest, h1, h2, h3, checkCircuitLimit, hfz, hin]
    · intro hfz
      simp [sendTradeRequest, h1, h2, h3, checkCircuitLimit, hfz]

/-- Claim C4: a trade request reaches at most one terminal outcome: a
`respond` call for an id absent from the pending set fails with the
not-found error and leaves the state entirely unchanged, and any `respond`
call or expiry firing leaves the id absent from the pending set. -/
theorem c4_terminal_at_most_once (s : GState) (rid : String) (accept : Bool) :
    (mapFind? s.tradeRequests rid = none →
      respondTradeRequest s rid accept =
        (.err "Request not found or expired", s)) ∧
    mapFind? (respondTradeRequest s rid accept).2.tradeRequests rid = none ∧
    mapFind? (expireTradeRequest s rid).tradeRequests rid = none := by
  refine ⟨?_, ?_, ?_⟩
  · intro h
    simp [respondTradeRequest, h]
  · cases hreq : mapFind? s.tradeRequests rid with
    | none => simp [respondTradeRequest, hreq]
    | some r =>
      simp only [respondTradeRequest, hreq]
      repeat' split
      all_goals simp
  · simp [expireTradeRequest]

/-- Witness for C7: proposing at price 430 on the 400-priced instrument
(within the band) with two teams present creates the pending request with
a 20000 ms expiry. -/
theorem c7_send_trade_request_guard_witness :
    (sendTradeRequest
        (createTeam (createTeam initState "team-a" "JA" "Team A" 100000).2
          "team-b" "JB" "Team B" 100000).2
        "req-1" "team-a" "team-b" "sell" "TATAMOTORS" 1 430).1 =
      .ok { id := "req-1", fromTeamId := "team-a", fromTeamName := "Team A",
            toTeamId := "team-b", toTeamName := "Team B", action := "sell",
            symbol := "TATAMOTORS", stockName := "TATA MOTORS", quantity := 1,
            price := 430, expiresAt := 20000 } := by
  have h := (c7_send_trade_request_guard
    (createTeam (createTeam initState "team-a" "JA" "Team A" 100000).2
      "team-b" "JB" "Team B" 100000).2
    "req-1" "team-a" "team-b" "sell" "TATAMOTORS" 1 430).2
    { id := "team-a", name := "Team A", cash := 100000,
      startingBalance := 100000, holdings := [], shortHoldings := [],
      joinCode := "JA", trades := [] }
    { id := "team-b", name := "Team B", cash := 100000,
      startingBalance := 100000, holdings := [], shortHoldings := [],
      joinCode := "JB", trades := [] }
    ⟨"TATA MOTORS", 400, "TATAMOTORS"⟩
    (by simp [createTeam, initState, mapFind?, mapSet])
    (by simp [createTeam, initState, mapFind?, mapSet])
    (by simp [createTeam, initState, initStocks, mapFind?, mapSet])
  have h2 := (h.1 rfl).2 (by norm_num)
  rw [h2]
  rfl

/-- Witness for C4: responding to an unknown request id on the initial
state fails with the not-found error and changes nothing. -/
theorem c4_terminal_at_most_once_witness :
    respondTradeRequest initState "no-such-request" true =
      (.err "Request not found or expired", initState) :=
  (c4_terminal_at_most_once initState "no-such-request" true).1 rfl


/-- Counterexample for Claim C1 as stated: an accepted trade request can
settle at a price outside `[0.92, 1.08]` times the instrument's price *at
the moment of settlement* even though `circuitLimitFrozen` is false then.
Team A proposes a sell at 430 while the price is 400 (within the band), the
admin then moves the price to 300, and the acceptance still settles at 430,
which is outside `[276, 324]`. -/
theorem c1_settlement_outside_band_counterexample :
    let s0 := (createTeam (createTeam initState "team-a" "JA" "Team A" 100000).2
                 "team-b" "JB" "Team B" 100000).2
    let s1 := (executeTrade s0 "team-a" "buy" "TATAMOTORS" 5 400).2
    let s2 := (sendTradeRequest s1 "req-1" "team-a" "team-b" "sell"
                 "TATAMOTORS" 1 430).2
    let s3 := updateStockPrice s2 "TATAMOTORS" 300
    let out := respondTradeRequest s3 "req-1" true
    out.1 = .ok () ∧
    (mapFind? out.2.teams "team-b").map Team.cash = some 99570 ∧
    (mapFind? out.2.teams "team-a").map Team.cash = some 98430 ∧
    s3.gameConfig.circuitLimitFrozen = false ∧
    (mapFind? s3.stocks "TATAMOTORS").map Stock.price = some 300 ∧
    checkCircuitLimit false 300 430 = false := by
  norm_num [createTeam, initState, initStocks, initGameConfig, executeTrade,
    finishTrade, sendTradeRequest, respondTradeRequest, updateStockPrice,
    checkCircuitLimit, updTeam, mapFind?, mapGet, mapSet, mapErase, Res.isOk,
    if_neg (show ¬("team-a" = "team-b") from by decide),
    if_neg (show ¬("team-b" = "team-a") from by decide),
    if_neg (show ¬("ADANIGREEN" = "TATAMOTORS") from by decide),
    if_neg (show ¬("ONGC" = "TATAMOTORS") from by decide),
    if_neg (show ¬("RELIANCE" = "TATAMOTORS") from by decide),
    if_neg (show ¬("ITC" = "TATAMOTORS") from by decide),
    if_neg (show ¬("HDFCBANK" = "TATAMOTORS") from by decide),
    if_neg (show ¬("ICICIBANK" = "TATAMOTORS") from by decide),
    if_neg (show ¬("ZOMATO" = "TATAMOTORS") from by decide),
    if_neg (show ¬("TATAELXSI" = "TATAMOTORS") from by decide),
    if_neg (show ¬("INFOSYS" = "TATAMOTORS") from by decide),
    if_neg (show ¬("LNT" = "TATAMOTORS") from by decide),
    if_neg (show ¬("GOLD" = "TATAMOTORS") from by decide),
    if_neg (show ¬("SILVER" = "TATAMOTORS") from by decide),
    if_neg (show ¬("CRUDEOIL" = "TATAMOTORS") from by decide),
    if_neg (show ¬("DOGE" = "TATAMOTORS") from by decide),
    if_neg (show ¬("ETHEREUM" = "TATAMOTORS") from by decide),
    if_neg (show ¬("sell" = "buy") from by decide)]

/-- Claim C1 (amended): the circuit-limit guard applies at the moment a
trade request is *created*, not at settlement: whenever
`send_trade_request` accepts a request, the proposed price (which becomes
the request's stored settlement price verbatim) lies within `[0.92, 1.08]`
times the instrument's price at that moment, unless `circuitLimitFrozen`
is true at that moment.  No re-check happens at settlement. -/
theorem c1_circuit_limit_checked_at_creation (s : GState)
    (rid fromId toId action symbol : String) (q p : JsNum)
    (r : TradeRequest) (stock : Stock)
    (hstock : mapFind? s.stocks symbol = some stock)
    (h : (sendTradeRequest s rid fromId toId action symbol q p).1 = .ok r) :
    r.price = p ∧
    (s.gameConfig.circuitLimitFrozen = true ∨
      (stock.price * (92 / 100) ≤ p ∧ p ≤ stock.price * (108 / 100))) := by
  cases h1 : mapFind? s.teams fromId with
  | none => simp [sendTradeRequest, h1] at h
  | some ft =>
    cases h2 : mapFind? s.teams toId with
    | none => simp [sendTradeRequest, h1, h2] at h
    | some tt =>
      by_cases hfz : s.gameConfig.circuitLimitFrozen = true
      · have hcheck : checkCircuitLimit s.gameConfig.circuitLimitFrozen
            stock.price p = true := by simp [checkCircuitLimit, hfz]
        simp only [sendTradeRequest, h1, h2, hstock, hcheck, if_true] at h
        injection h with h'
        exact ⟨by rw [← h'], Or.inl hfz⟩
      · by_cases hband : p < stock.price * (92 / 100) ∨
          p > stock.price * (108 / 100)
        · have hcheck : checkCircuitLimit s.gameConfig.circuitLimitFrozen
              stock.price p = false := by
            simp [checkCircuitLimit, hfz, hband]
          simp [sendTradeRequest, h1, h2, hstock, hcheck] at h
        · have hcheck : checkCircuitLimit s.gameConfig.circuitLimitFrozen
              stock.price p = true := by
            simp [checkCircuitLimit, hfz, hband]
          simp only [sendTradeRequest, h1, h2, hstock, hcheck, if_true] at h
          injection h with h'
          refine ⟨by rw [← h'], Or.inr ?_⟩
          push_neg at hband
          exact hband

/-- Witness for the amended C1: a sell proposal at 430 against the
400-priced instrument is accepted, and indeed 430 lies within the band
`[368, 432]` of the price at creation. -/
theorem c1_circuit_limit_checked_at_creation_witness :
    ((400 : JsNum) * (92 / 100) ≤ 430 ∧ (430 : JsNum) ≤ 400 * (108 / 100)) := by
  have h := c1_circuit_limit_checked_at_creation
    (createTeam (createTeam initState "team-a" "JA" "Team A" 100000).2
      "team-b" "JB" "Team B" 100000).2
    "req-1" "team-a" "team-b" "sell" "TATAMOTORS" 1 430
    { id := "req-1", fromTeamId := "team-a", fromTeamName := "Team A",
      toTeamId := "team-b", toTeamName := "Team B", action := "sell",
      symbol := "TATAMOTORS", stockName := "TATA MOTORS", quantity := 1,
      price := 430, expiresAt := 20000 }
    ⟨"TATA MOTORS", 400, "TATAMOTORS"⟩
    (by simp [createTeam, initState, initStocks, mapFind?, mapSet])
    (by norm_num [createTeam, initState, initStocks, initGameConfig,
      sendTradeRequest, checkCircuitLimit, mapFind?, mapSet,
      if_neg (show ¬("team-a" = "team-b") from by decide),
      if_neg (show ¬("team-b" = "team-a") from by decide)])
  rcases h.2 with hfz | hband
  · exact absurd hfz (by decide)
  · exact hband

/-! ## Timer lemmas -/

theorem tick_inactive (t : TimerSt) (h : t.active = false) : tick t = t := by
  simp [tick, h]

theorem tick_countdown_run (n : Nat) :
    ∀ c : GameConfig, c.timeRemaining = n + 1 →
      tick^[n + 1] ⟨c, true⟩ =
        handleTimerEnd ⟨{ c with timeRemaining := 0 }, true⟩ := by
  induction n with
  | zero =>
    intro c h
    rw [Function.iterate_one]
    simp [tick, h]
  | succ m ih =>
    intro c h
    rw [Function.iterate_succ_apply]
    have hstep : tick ⟨c, true⟩ = ⟨{ c with timeRemaining := m + 1 }, true⟩ := by
      simp [tick, h]
    rw [hstep]
    exact ih { c with timeRemaining := m + 1 } rfl

/-- Claim C6: on the countdown reaching zero, `portfolio_allocation`
transitions to `waiting`; `trading` with rounds left increments the round
and resets the clock to `tradingRoundTime`, staying in `trading`; `trading`
with no rounds left transitions to `ended` and stops the interval; an
inactive timer never ticks again; and in the concrete scenario
(duration 600, rounds 3) the round is 2 after 600 ticks and the phase is
`ended` with a fixed state after 1800 ticks. -/
theorem c6_timer_transitions (t : TimerSt) :
    (t.active = true → t.cfg.timeRemaining = 1 →
      t.cfg.phase = "portfolio_allocation" →
      (tick t).cfg.phase = "waiting") ∧
    (t.active = true → t.cfg.timeRemaining = 1 → t.cfg.phase = "trading" →
      t.cfg.currentRound < t.cfg.totalRounds →
      (tick t).cfg.phase = "trading" ∧
      (tick t).cfg.currentRound = t.cfg.currentRound + 1 ∧
      (tick t).cfg.timeRemaining = t.cfg.tradingRoundTime) ∧
    (t.active = true → t.cfg.timeRemaining = 1 → t.cfg.phase = "trading" →
      ¬ t.cfg.currentRound < t.cfg.totalRounds →
      (tick t).cfg.phase = "ended" ∧ (tick t).active = false) ∧
    (t.active = false → tick t = t) ∧
    (tick^[600] (startPhase ⟨initGameConfig, false⟩ "trading" 600 3 none) =
      ⟨tradingCfg 2 600, true⟩) ∧
    (tick^[1800] (startPhase ⟨initGameConfig, false⟩ "trading" 600 3 none) =
      ⟨{ tradingCfg 3 0 with phase := "ended" }, false⟩) ∧
    tick ⟨{ tradingCfg 3 0 with phase := "ended" }, false⟩ =
      ⟨{ tradingCfg 3 0 with phase := "ended" }, false⟩ := by
  have hstart : startPhase ⟨initGameConfig, false⟩ "trading" 600 3 none =
      ⟨tradingCfg 1 600, true⟩ := by
    simp [startPhase, initGameConfig, tradingCfg]
  have h600 : tick^[600] (⟨tradingCfg 1 600, true⟩ : TimerSt) =
      ⟨tradingCfg 2 600, true⟩ := by
    have h := tick_countdown_run 599 (tradingCfg 1 600) rfl
    rw [show (599 + 1 : Nat) = 600 from rfl] at h
    rw [h]
    simp [handleTimerEnd, tradingCfg]
  have h1200 : tick^[600] (⟨tradingCfg 2 600, true⟩ : TimerSt) =
      ⟨tradingCfg 3 600, true⟩ := by
    have h := tick_countdown_run 599 (tradingCfg 2 600) rfl
    rw [show (599 + 1 : Nat) = 600 from rfl] at h
    rw [h]
    simp [handleTimerEnd, tradingCfg]
  have h1800 : tick^[600] (⟨tradingCfg 3 600, true⟩ : TimerSt) =
      ⟨{ tradingCfg 3 0 with phase := "ended" }, false⟩ := by
    have h := tick_countdown_run 599 (tradingCfg 3 600) rfl
    rw [show (599 + 1 : Nat) = 600 from rfl] at h
    rw [h]
    simp [handleTimerEnd, tradingCfg]
  refine ⟨?_, ?_, ?_, ?_, ?_, ?_, ?_⟩
  · intro ha h1 hp
    simp [tick, handleTimerEnd, ha, h1, hp]
  · intro ha h1 hp hlt
    simp [tick, handleTimerEnd, ha, h1, hp, hlt]
  · intro ha h1 hp hnlt
    simp [tick, handleTimerEnd, ha, h1, hp, hnlt]
  · intro ha
    simp [tick, ha]
  · rw [hstart]
    exact h600
  · rw [hstart, show (1800 : Nat) = 600 + (600 + 600) from rfl,
      Function.iterate_add_apply, Function.iterate_add_apply, h600, h1200]
    exact h1800
  · simp [tick]

/-- Witness for C6: a ticking `portfolio_allocation` timer with one second
left transitions to `waiting`. -/
theorem c6_timer_transitions_witness :
    (tick ⟨{ tradingCfg 0 1 with phase := "portfolio_allocation" }, true⟩).cfg.phase = "waiting" :=
  (c6_timer_transitions ⟨{ tradingCfg 0 1 with phase := "portfolio_allocation" }, true⟩).1 rfl rfl rfl

/-! ## Settlement lemmas -/

theorem mapGet_sellUpdate (m : List (String × JsNum)) (k : String) (q : JsNum) :
    mapGet (if mapGet m k - q = 0
            then mapErase (mapSet m k (mapGet m k - q)) k
            else mapSet m k (mapGet m k - q)) k = mapGet m k - q := by
  by_cases hz : mapGet m k - q = 0 <;> simp [hz]

/-- Claim C2: responding to a pending request with accept=true resolves
the buyer as the requester for action `buy` and as the recipient
otherwise (in particular for `sell`); it fails with the
insufficient-funds error when the buyer's cash is below
`quantity*price` and with the insufficient-holdings error when the
seller's *long* holdings are below `quantity`, in that order, with no
team mutated on either failure (only the request is removed); on success
the buyer's cash drops by exactly `quantity*price`, the seller's cash
rises by the same amount, the buyer's long holdings of the symbol grow by
`quantity`, the seller's shrink by `quantity` with the entry removed on
reaching zero, and neither side's short holdings change. -/
theorem c2_settlement_paths (s : GState) (rid : String) (r : TradeRequest)
    (bt st : Team)
    (hreq : mapFind? s.tradeRequests rid = some r)
    (hne : r.fromTeamId ≠ r.toTeamId)
    (hb : mapFind? s.teams
      (if r.action = "buy" then r.fromTeamId else r.toTeamId) = some bt)
    (hs : mapFind? s.teams
      (if r.action = "buy" then r.toTeamId else r.fromTeamId) = some st) :
    ((r.action = "buy" →
        (if r.action = "buy" then r.fromTeamId else r.toTeamId) =
          r.fromTeamId) ∧
     (r.action = "sell" →
        (if r.action = "buy" then r.fromTeamId else r.toTeamId) =
          r.toTeamId)) ∧
    (bt.cash < r.quantity * r.price →
      respondTradeRequest s rid true =
        (.err "Buyer has insufficient funds",
         { s with tradeRequests := mapErase s.tradeRequests rid })) ∧
    (¬ bt.cash < r.quantity * r.price →
      mapGet st.holdings r.symbol < r.quantity →
      respondTradeRequest s rid true =
        (.err "Seller has insufficient holdings",
         { s with tradeRequests := mapErase s.tradeRequests rid })) ∧
    (¬ bt.cash < r.quantity * r.price →
      ¬ mapGet st.holdings r.symbol < r.quantity →
      (respondTradeRequest s rid true).1 = .ok () ∧
      (mapFind? (respondTradeRequest s rid true).2.teams
          (if r.action = "buy" then r.fromTeamId else r.toTeamId)).map
        Team.cash = some (bt.cash - r.quantity * r.price) ∧
      (mapFind? (respondTradeRequest s rid true).2.teams
          (if r.action = "buy" then r.toTeamId else r.fromTeamId)).map
        Team.cash = some (st.cash + r.quantity * r.price) ∧
      (mapFind? (respondTradeRequest s rid true).2.teams
          (if r.action = "buy" then r.fromTeamId else r.toTeamId)).map
        (fun t => mapGet t.holdings r.symbol) =
        some (mapGet bt.holdings r.symbol + r.quantity) ∧
      (mapFind? (respondTradeRequest s rid true).2.teams
          (if r.action = "buy" then r.toTeamId else r.fromTeamId)).map
        (fun t => mapGet t.holdings r.symbol) =
        some (mapGet st.holdings r.symbol - r.quantity) ∧
      (mapGet st.holdings r.symbol = r.quantity →
        (mapFind? (respondTradeRequest s rid true).2.teams
            (if r.action = "buy" then r.toTeamId else r.fromTeamId)).map
          (fun t => mapFind? t.holdings r.symbol) = some none) ∧
      (mapFind? (respondTradeRequest s rid true).2.teams
          (if r.action = "buy" then r.fromTeamId else r.toTeamId)).map
        Team.shortHoldings = some bt.shortHoldings ∧
      (mapFind? (respondTradeRequest s rid true).2.teams
          (if r.action = "buy" then r.toTeamId else r.fromTeamId)).map
        Team.shortHoldings = some st.shortHoldings) := by
  have hne' : r.toTeamId ≠ r.fromTeamId := hne.symm
  refine ⟨⟨fun ha => by simp [ha], fun ha => by simp [ha]⟩, ?_, ?_, ?_⟩
  · intro h1
    simp [respondTradeRequest, hreq, hb, hs, h1]
  · intro h1 h2
    simp [respondTradeRequest, hreq, hb, hs, h1, h2]
  · intro h1 h2
    by_cases hc : r.action = "buy" <;>
      simp only [hc, if_true, if_false, reduceIte] at hb hs ⊢ <;>
      refine ⟨?_, ?_, ?_, ?_, ?_, ?_, ?_, ?_⟩ <;>
      [skip; skip; skip; skip; skip; (intro hz); skip; skip;
       skip; skip; skip; skip; skip; (intro hz); skip; skip] <;>
      simp [respondTradeRequest, hreq, hb, hs, h1, h2, hc,
        mapFind?_updTeam, hne, hne', mapGet_sellUpdate, mapGet_mapSet_self,
        *]

/-- Witness for C2: accepting a pending sell of 1 unit at 430 from team A
(holding 5 units) to team B (holding 100000 cash) settles. -/
theorem c2_settlement_paths_witness :
    (respondTradeRequest
        { initState with
          teams :=
            [("team-a",
              { id := "team-a", name := "Team A", cash := 98000,
                startingBalance := 100000,
                holdings := [("TATAMOTORS", 5)], shortHoldings := [],
                joinCode := "JA", trades := [] }),
             ("team-b",
              { id := "team-b", name := "Team B", cash := 100000,
                startingBalance := 100000, holdings := [],
                shortHoldings := [], joinCode := "JB", trades := [] })],
          tradeRequests :=
            [("req-1",
              { id := "req-1", fromTeamId := "team-a",
                fromTeamName := "Team A", toTeamId := "team-b",
                toTeamName := "Team B", action := "sell",
                symbol := "TATAMOTORS", stockName := "TATA MOTORS",
                quantity := 1, price := 430, expiresAt := 20000 })] }
        "req-1" true).1 = .ok () := by
  have h := c2_settlement_paths
    { initState with
      teams :=
        [("team-a",
          { id := "team-a", name := "Team A", cash := 98000,
            startingBalance := 100000,
            holdings := [("TATAMOTORS", 5)], shortHoldings := [],
            joinCode := "JA", trades := [] }),
         ("team-b",
          { id := "team-b", name := "Team B", cash := 100000,
            startingBalance := 100000, holdings := [],
            shortHoldings := [], joinCode := "JB", trades := [] })],
      tradeRequests :=
        [("req-1",
          { id := "req-1", fromTeamId := "team-a", fromTeamName := "Team A",
            toTeamId := "team-b", toTeamName := "Team B", action := "sell",
            symbol := "TATAMOTORS", stockName := "TATA MOTORS",
            quantity := 1, price := 430, expiresAt := 20000 })] }
    "req-1"
    { id := "req-1", fromTeamId := "team-a", fromTeamName := "Team A",
      toTeamId := "team-b", toTeamName := "Team B", action := "sell",
      symbol := "TATAMOTORS", stockName := "TATA MOTORS",
      quantity := 1, price := 430, expiresAt := 20000 }
    { id := "team-b", name := "Team B", cash := 100000,
      startingBalance := 100000, holdings := [], shortHoldings := [],
      joinCode := "JB", trades := [] }
    { id := "team-a", name := "Team A", cash := 98000,
      startingBalance := 100000, holdings := [("TATAMOTORS", 5)],
      shortHoldings := [], joinCode := "JA", trades := [] }
    (by simp [mapFind?])
    (by decide)
    (by simp [mapFind?])
    (by simp [mapFind?])
  exact (h.2.2.2 (by norm_num) (by norm_num [mapGet, mapFind?])).1

/-! ## Positivity-invariant lemmas -/

theorem mem_mapErase_ne {α : Type} {m : List (String × α)} {k : String}
    {q : String × α} (hq : q ∈ mapErase m k) : q ∈ m ∧ q.1 ≠ k := by
  induction m with
  | nil => simp [mapErase] at hq
  | cons hd tl ih =>
    by_cases h : hd.1 = k
    · rw [mapErase, if_pos h] at hq
      exact ⟨List.mem_cons_of_mem _ (ih hq).1, (ih hq).2⟩
    · rw [mapErase, if_neg h] at hq
      rcases List.mem_cons.mp hq with h1 | h1
      · exact ⟨h1 ▸ List.mem_cons_self _ _, h1 ▸ h⟩
      · exact ⟨List.mem_cons_of_mem _ (ih h1).1, (ih h1).2⟩

theorem mapGet_nonneg {m : List (String × JsNum)} (h : PosMap m)
    (k : String) : 0 ≤ mapGet m k := by
  unfold mapGet
  cases hf : mapFind? m k with
  | none => simp
  | some v =>
    simpa using (h _ (mapFind?_mem hf)).le

theorem posMap_mapSet {m : List (String × JsNum)} {k : String} {v : JsNum}
    (hm : PosMap m) (hv : 0 < v) : PosMap (mapSet m k v) := by
  intro e he
  rcases mem_mapSet he with rfl | he'
  · exact hv
  · exact hm _ he'

theorem posMap_buyUpdate {m : List (String × JsNum)} {k : String} {q : JsNum}
    (hm : PosMap m) (hq : 0 < q) : PosMap (mapSet m k (mapGet m k + q)) :=
  posMap_mapSet hm (add_pos_of_nonneg_of_pos (mapGet_nonneg hm k) hq)

theorem posMap_eraseSet {m : List (String × JsNum)} {k : String} {v : JsNum}
    (hm : PosMap m) : PosMap (mapErase (mapSet m k v) k) := by
  intro e he
  have h2 := mem_mapErase_ne he
  rcases mem_mapSet h2.1 with rfl | h3
  · exact absurd rfl h2.2
  · exact hm _ h3

theorem sub_pos_of_guard {g q : JsNum} (hle : ¬ g < q) (hz : ¬ g - q = 0) :
    0 < g - q :=
  lt_of_le_of_ne (sub_nonneg.mpr (not_lt.mp hle)) (fun h => hz h.symm)

theorem posTeams_mapSet {teams : List (String × Team)} {tid : String}
    {t' : Team} (h : ∀ p ∈ teams, TeamPos p.2) (ht : TeamPos t') :
    ∀ p ∈ mapSet teams tid t', TeamPos p.2 := by
  intro e he
  rcases mem_mapSet he with rfl | he'
  · exact ht
  · exact h e he'

theorem posTeams_updTeam {teams : List (String × Team)} {id : String}
    {f : Team → Team} (h : ∀ p ∈ teams, TeamPos p.2)
    (hf : ∀ t, mapFind? teams id = some t → TeamPos t → TeamPos (f t)) :
    ∀ p ∈ updTeam teams id f, TeamPos p.2 := by
  unfold updTeam
  cases hfind : mapFind? teams id with
  | none => exact h
  | some t => exact posTeams_mapSet h (hf t hfind (h _ (mapFind?_mem hfind)))

theorem statePos_finishTrade (s : GState) (teamId : String) (team : Team)
    (action symbol : String) (q p : JsNum) (hpos : StatePos s)
    (ht : TeamPos team) :
    StatePos (finishTrade s teamId team action symbol q p).2 := by
  intro e he
  simp only [finishTrade] at he
  refine posTeams_mapSet hpos ?_ e he
  exact ⟨ht.1, ht.2⟩

theorem statePos_executeTrade (s : GState) (teamId action symbol : String)
    (q p : JsNum) (hpos : StatePos s) (hq : 0 < q) :
    StatePos (executeTrade s teamId action symbol q p).2 := by
  cases hteam : mapFind? s.teams teamId with
  | none =>
    cases hstock : mapFind? s.stocks symbol <;>
      · simp only [executeTrade, hteam, hstock]
        exact hpos
  | some team =>
    cases hstock : mapFind? s.stocks symbol with
    | none =>
      simp only [executeTrade, hteam, hstock]
      exact hpos
    | some stk =>
      have ht : TeamPos team := hpos _ (mapFind?_mem hteam)
      simp only [executeTrade, hteam, hstock]
      by_cases ha1 : action = "buy"
      · simp only [ha1, if_true, reduceIte]
        by_cases hc1 : team.cash < q * p
        · simp only [hc1, if_true, reduceIte]
          exact hpos
        · simp only [hc1, if_false, reduceIte]
          exact statePos_finishTrade _ _ _ _ _ _ _ hpos
            ⟨posMap_buyUpdate ht.1 hq, ht.2⟩
      · simp only [ha1, if_false, reduceIte]
        by_cases ha2 : action = "sell"
        · simp only [ha2, if_true, reduceIte]
          by_cases hc2 : mapGet team.holdings symbol < q
          · simp only [hc2, if_true, reduceIte]
            exact hpos
          · simp only [hc2, if_false, reduceIte]
            by_cases hz : mapGet (mapSet team.holdings symbol
                (mapGet team.holdings symbol - q)) symbol = 0
            · simp only [hz, if_true, reduceIte]
              exact statePos_finishTrade _ _ _ _ _ _ _ hpos
                ⟨posMap_eraseSet ht.1, ht.2⟩
            · simp only [hz, if_false, reduceIte]
              refine statePos_finishTrade _ _ _ _ _ _ _ hpos
                ⟨posMap_mapSet ht.1 (sub_pos_of_guard hc2 ?_), ht.2⟩
              simpa using hz
        · simp only [ha2, if_false, reduceIte]
          by_cases ha3 : action = "short_sell"
          · simp only [ha3, if_true, reduceIte]
            by_cases hfz : s.gameConfig.shortSellingFrozen
            · simp only [hfz, if_true, reduceIte]
              exact hpos
            · simp only [hfz, if_false, reduceIte, Bool.false_eq_true]
              by_cases hph : s.gameConfig.phase = "trading"
              · simp only [hph, not_true, if_false, reduceIte]
                by_cases hcol : q * p > team.cash
                · simp only [hcol, if_true, reduceIte]
                  exact hpos
                · simp only [hcol, if_false, reduceIte]
                  exact statePos_finishTrade _ _ _ _ _ _ _ hpos
                    ⟨ht.1, posMap_buyUpdate ht.2 hq⟩
              · simp only [hph, not_false_iff, if_true, reduceIte]
                exact hpos
          · simp only [ha3, if_false, reduceIte]
            by_cases ha4 : action = "cover_short"
            · simp only [ha4, if_true, reduceIte]
              by_cases hc3 : mapGet team.shortHoldings symbol < q
              · simp only [hc3, if_true, reduceIte]
                exact hpos
              · simp only [hc3, if_false, reduceIte]
                by_cases hc4 : team.cash < q * p
                · simp only [hc4, if_true, reduceIte]
                  exact hpos
                · simp only [hc4, if_false, reduceIte]
                  by_cases hz : mapGet (mapSet team.shortHoldings symbol
                      (mapGet team.shortHoldings symbol - q)) symbol = 0
                  · simp only [hz, if_true, reduceIte]
                    exact statePos_finishTrade _ _ _ _ _ _ _ hpos
                      ⟨ht.1, posMap_eraseSet ht.2⟩
                  · simp only [hz, if_false, reduceIte]
                    refine statePos_finishTrade _ _ _ _ _ _ _ hpos
                      ⟨ht.1, posMap_mapSet ht.2 (sub_pos_of_guard hc3 ?_)⟩
                    simpa using hz
            · simp only [ha4, if_false, reduceIte]
              exact statePos_finishTrade _ _ _ _ _ _ _ hpos ht

theorem statePos_respondTradeRequest (s : GState) (rid : String)
    (accept : Bool) (hpos : StatePos s)
    (hreqpos : ∀ pr ∈ s.tradeRequests, 0 < pr.2.quantity) :
    StatePos (respondTradeRequest s rid accept).2 := by
  cases hreq : mapFind? s.tradeRequests rid with
  | none =>
    simp only [respondTradeRequest, hreq]
    exact hpos
  | some r =>
    have hq : 0 < r.quantity := hreqpos _ (mapFind?_mem hreq)
    cases accept with
    | false =>
      simp only [respondTradeRequest, hreq, Bool.false_eq_true,
        not_false_iff, if_true, reduceIte]
      exact hpos
    | true =>
      simp only [respondTradeRequest, hreq, not_true, if_false, reduceIte]
      cases hbl : mapFind? s.teams
          (if r.action = "buy" then r.fromTeamId else r.toTeamId) with
      | none =>
        cases hsl : mapFind? s.teams
            (if r.action = "buy" then r.toTeamId else r.fromTeamId) <;>
          · simp only [hbl, hsl]
            exact hpos
      | some buyerTeam =>
        cases hsl : mapFind? s.teams
            (if r.action = "buy" then r.toTeamId else r.fromTeamId) with
        | none =>
          simp only [hbl, hsl]
          exact hpos
        | some sellerTeam =>
          simp only [hbl, hsl]
          by_cases hcash : buyerTeam.cash < r.quantity * r.price
          · simp only [hcash, if_true, reduceIte]
            exact hpos
          · simp only [hcash, if_false, reduceIte]
            by_cases hhold : mapGet sellerTeam.holdings r.symbol < r.quantity
            · simp only [hhold, if_true, reduceIte]
              exact hpos
            · simp only [hhold, if_false, reduceIte]
              intro e he
              have hbound : ∀ t,
                  mapFind? (updTeam (updTeam (updTeam s.teams
                      (if r.action = "buy" then r.fromTeamId else r.toTeamId)
                      (fun t => { t with cash := t.cash - r.quantity * r.price }))
                      (if r.action = "buy" then r.toTeamId else r.fromTeamId)
                      (fun t => { t with cash := t.cash + r.quantity * r.price }))
                      (if r.action = "buy" then r.fromTeamId else r.toTeamId)
                      (fun t =>
                        let h := mapSet t.holdings r.symbol
                          (mapGet t.holdings r.symbol + r.quantity)
                        { t with holdings := h }))
                    (if r.action = "buy" then r.toTeamId else r.fromTeamId) =
                    some t →
                  r.quantity ≤ mapGet t.holdings r.symbol := by
                intro t hfind
                by_cases halias :
                    (if r.action = "buy" then r.fromTeamId else r.toTeamId) =
                    (if r.action = "buy" then r.toTeamId else r.fromTeamId)
                · rw [mapFind?_updTeam, if_pos halias, mapFind?_updTeam,
                    if_pos rfl, mapFind?_updTeam, if_pos halias, ← halias,
                    hbl] at hfind
                  have hbs : buyerTeam = sellerTeam := by
                    rw [halias, hsl] at hbl
                    exact ((Option.some.injEq _ _).mp hbl).symm
                  simp only [Option.map_some] at hfind
                  injection hfind with hfind'
                  rw [← hfind']
                  simp only [mapGet_mapSet_self]
                  have hpos' : 0 ≤ mapGet sellerTeam.holdings r.symbol :=
                    mapGet_nonneg (hpos _ (mapFind?_mem hsl)).1 r.symbol
                  rw [← hbs] at hpos'
                  linarith
                · rw [mapFind?_updTeam, if_neg halias, mapFind?_updTeam,
                    if_pos rfl, mapFind?_updTeam, if_neg halias, hsl] at hfind
                  simp only [Option.map] at hfind
                  injection hfind with hfind'
                  rw [← hfind']
                  exact not_lt.mp hhold
              refine posTeams_updTeam (posTeams_updTeam (posTeams_updTeam
                (posTeams_updTeam (posTeams_updTeam (posTeams_updTeam hpos
                  ?_) ?_) ?_) ?_) ?_) ?_ e he
              · exact fun t _ ht => ⟨ht.1, ht.2⟩
              · exact fun t _ ht => ⟨ht.1, ht.2⟩
              · exact fun t _ ht => ⟨posMap_buyUpdate ht.1 hq, ht.2⟩
              · intro t hfind ht
                refine ⟨?_, ht.2⟩
                have hb := hbound t hfind
                by_cases hz : mapGet (mapSet t.holdings r.symbol
                    (mapGet t.holdings r.symbol - r.quantity)) r.symbol = 0
                · rw [if_pos hz]
                  exact posMap_eraseSet ht.1
                · rw [if_neg hz]
                  refine posMap_mapSet ht.1
                    (sub_pos_of_guard (not_lt.mpr hb) ?_)
                  simpa using hz
              · exact fun t _ ht => ⟨ht.1, ht.2⟩
              · exact fun t _ ht => ⟨ht.1, ht.2⟩

theorem closeShort_foldl_holdings (s : GState) (teamId : String)
    (l : List (String × JsNum)) :
    ∀ acc : Team × List Trade,
      (l.foldl (closeShortStep s teamId) acc).1.holdings = acc.1.holdings := by
  induction l with
  | nil =>
    intro acc
    rfl
  | cons hd tl ih =>
    intro acc
    rw [List.foldl_cons, ih]
    unfold closeShortStep
    cases hstk : mapFind? s.stocks hd.1 with
    | none => simp only [hstk]
    | some stk =>
      simp only [hstk]
      by_cases hq : 0 < hd.2
      · rw [if_pos hq]
      · rw [if_neg hq]

theorem statePos_closeShortPositions (s : GState) (teamId : String)
    (hpos : StatePos s) : StatePos (closeShortPositions s teamId) := by
  cases hteam : mapFind? s.teams teamId with
  | none =>
    simp only [closeShortPositions, hteam]
    exact hpos
  | some team =>
    simp only [closeShortPositions, hteam]
    intro e he
    refine posTeams_mapSet hpos ?_ e he
    constructor
    · show PosMap (team.shortHoldings.foldl (closeShortStep s teamId)
        (team, s.trades)).1.holdings
      rw [closeShort_foldl_holdings]
      exact (hpos _ (mapFind?_mem hteam)).1
    · exact fun e' he' => absurd he' (List.not_mem_nil _)

/-- Claim C5: the positivity invariant of the inventory maps (no symbol
ever present with quantity ≤ 0; entries reaching zero are removed) is
preserved by every direct trade execution with a positive quantity, by
every negotiated-settlement response when all pending requests carry
positive quantities, and by every forced short close. -/
theorem c5_no_nonpositive_entries :
    (∀ (s : GState) (teamId action symbol : String) (q p : JsNum),
      StatePos s → 0 < q →
      StatePos (executeTrade s teamId action symbol q p).2) ∧
    (∀ (s : GState) (rid : String) (accept : Bool),
      StatePos s → (∀ pr ∈ s.tradeRequests, 0 < pr.2.quantity) →
      StatePos (respondTradeRequest s rid accept).2) ∧
    (∀ (s : GState) (teamId : String),
      StatePos s → StatePos (closeShortPositions s teamId)) :=
  ⟨fun s teamId action symbol q p => statePos_executeTrade s teamId action symbol q p,
   fun s rid accept => statePos_respondTradeRequest s rid accept,
   fun s teamId => statePos_closeShortPositions s teamId⟩

/-- Witness for C5: executing a buy of 10 units on a freshly created team
preserves the invariant. -/
theorem c5_no_nonpositive_entries_witness :
    StatePos (executeTrade (createTeam initState "team-a" "JC" "Team A" 100000).2
      "team-a" "buy" "TATAMOTORS" 10 400).2 := by
  refine c5_no_nonpositive_entries.1
    (createTeam initState "team-a" "JC" "Team A" 100000).2
    "team-a" "buy" "TATAMOTORS" 10 400 ?_ (by norm_num)
  intro pr hpr
  simp only [createTeam, initState, mapSet] at hpr
  rcases List.mem_singleton.mp hpr with rfl
  exact ⟨fun e he => absurd he (List.not_mem_nil _),
         fun e he => absurd he (List.not_mem_nil _)⟩
